import Mathlib

/-!
Verification development for the build orchestration script
(scripts/make.js): path classification, module-name derivation, manifest
generation, the package descriptor transform, and the production and
development pipelines, shallowly embedded over strings, lists and explicit
step traces.

The package name (read from package.json, outside the embedded script) and
the resolved absolute source and dev roots are parameters of the embedded
functions; witnesses instantiate them with concrete representatives.
-/

/-- First-occurrence replacement over character lists, mirroring the
JavaScript String.replace with a string pattern (used by the rambdax
replace function): only the leftmost occurrence of the pattern is
replaced. -/
def replaceFirstL (pat repl : List Char) : List Char → List Char
  | [] => if pat.isPrefixOf ([] : List Char) then repl else []
  | c :: cs =>
    if pat.isPrefixOf (c :: cs) then repl ++ (c :: cs).drop pat.length
    else c :: replaceFirstL pat repl cs

/-- String version of first-occurrence replacement, as in
replace(SOURCE_PATH, ...) and replace(".js", ...) in the script. -/
def jsReplace (pat repl s : String) : String :=
  ⟨replaceFirstL pat.data repl.data s.data⟩

/-- Suffix test, mirroring rambdax endsWith on strings. -/
def jsEndsWith (suf s : String) : Bool :=
  suf.data.isSuffixOf s.data

/-- Containment of one character list in another: true when the pattern
occurs as a contiguous run somewhere in the list. -/
def isInfixL (pat : List Char) : List Char → Bool
  | [] => pat.isEmpty
  | c :: cs => pat.isPrefixOf (c :: cs) || isInfixL pat cs

/-- Substring-containment test: each entry of DO_NOT_BUILD_PATHS is a
regular expression consisting only of escaped literal characters, so an
anymatch test of one entry is containment of that literal. -/
def jsContains (pat s : String) : Bool :=
  isInfixL pat.data s.data

/-- Literal texts of the DO_NOT_BUILD_PATHS exclusion patterns from the
script (each source regex is an unanchored literal). -/
def DO_NOT_BUILD_PATHS : List String :=
  ["adapters/__tests__", "test.js", "type.js", "integrationTest.js",
   "__mocks__", "Collection/RecordCache.js", ".DS_Store"]

/-- Embeds anymatch(DO_NOT_BUILD_PATHS, value): true when some exclusion
pattern matches the path. -/
def anymatchDoNotBuild (p : String) : Bool :=
  DO_NOT_BUILD_PATHS.any (fun pat => jsContains pat p)

/-- Embeds isNotIncludedInBuildPaths from the script. -/
def isNotIncludedInBuildPaths (p : String) : Bool :=
  !anymatchDoNotBuild p

/-- Embeds takeFiles: a walked path is kept exactly when it ends in ".js"
and matches none of the exclusion patterns (pipe of prop "path" and
both(endsWith ".js", isNotIncludedInBuildPaths); items are modelled by
their path strings). -/
def takeFiles (p : String) : Bool :=
  jsEndsWith ".js" p && isNotIncludedInBuildPaths p

/-- Node path.dirname for POSIX paths, over character lists: scan from the
end, skip trailing slashes, skip the last component, and cut at the slash
found there; degenerate cases return "/" or ".". -/
def dirnameL (l : List Char) : List Char :=
  match l with
  | [] => ['.']
  | c :: cs =>
    let hasRoot := c = '/'
    let r2 := ((c :: cs).reverse.dropWhile (fun ch => ch = '/')).dropWhile
      (fun ch => ch ≠ '/')
    if r2.length ≤ 1 then (if hasRoot then ['/'] else ['.'])
    else if hasRoot && r2.length - 1 = 1 then ['/', '/']
    else (c :: cs).take (r2.length - 1)

/-- String version of path.dirname. -/
def dirnameStr (s : String) : String :=
  ⟨dirnameL s.data⟩

/-- Embeds rambdax tail on a string: drop the first character. -/
def strTail (s : String) : String :=
  ⟨s.data.tail⟩

/-- Embeds removeSourcePath = replace(SOURCE_PATH, ""), parameterized by
the resolved source root. -/
def removeSourcePath (src p : String) : String :=
  jsReplace src "" p

/-- Embeds createPathName: strip the source root, then either take the
dirname (paths ending in "index.js") or replace the first occurrence of
".js" with the empty string. -/
def createPathName (src file : String) : String :=
  let value := removeSourcePath src file
  if jsEndsWith "index.js" value then dirnameStr value
  else jsReplace ".js" "" value

/-- Embeds createModuleName: drop the leading slash of the derived name;
the bare package name when that is empty, otherwise package name, slash,
derived name. -/
def createModuleName (pkg name : String) : String :=
  let m := strTail name
  if m = "" then pkg else pkg ++ "/" ++ m

/-- Spec-side comparator for claim C1: strip the source-root prefix (as a
prefix, by length), take the dirname for names ending in the
directory-index filename, otherwise remove the trailing ".js" extension
(three characters), then assemble the public module name. -/
def claimC1ModuleName (pkg src p : String) : String :=
  let R : String := ⟨p.data.drop src.data.length⟩
  let raw := if jsEndsWith "index.js" R then dirnameStr R
    else (⟨R.data.take (R.data.length - 3)⟩ : String)
  let d := strTail raw
  if d = "" then pkg else pkg ++ "/" ++ d

/-- Spec-side comparator for the amended claim C1: identical to
claimC1ModuleName except that the non-index branch removes the first
occurrence of ".js" (what the script actually computes) instead of the
trailing extension. -/
def claimC1AmendedModuleName (pkg src p : String) : String :=
  let R : String := ⟨p.data.drop src.data.length⟩
  let raw := if jsEndsWith "index.js" R then dirnameStr R
    else jsReplace ".js" "" R
  let d := strTail raw
  if d = "" then pkg else pkg ++ "/" ++ d

/-- Replacing the first occurrence of a pattern in a list that starts with
that very pattern removes exactly that leading copy. -/
theorem replaceFirstL_self_append (pat rest : List Char) :
    replaceFirstL pat [] (pat ++ rest) = rest := by
  cases pat with
  | nil => cases rest <;> simp [replaceFirstL, List.isPrefixOf]
  | cons a as =>
    have hpre : (a :: as).isPrefixOf (a :: (as ++ rest)) = true := by
      rw [List.isPrefixOf_iff_prefix]
      exact List.cons_prefix_cons.mpr ⟨rfl, List.prefix_append as rest⟩
    simp [replaceFirstL, hpre, List.drop_left]

/-- On a path that extends the source root, removeSourcePath strips
exactly the root. -/
theorem removeSourcePath_append (src : String) (rel : List Char) :
    removeSourcePath src (src ++ (⟨rel⟩ : String)) = (⟨rel⟩ : String) := by
  unfold removeSourcePath jsReplace
  congr 1
  rw [String.data_append]
  exact replaceFirstL_self_append _ _

/-- Dropping the length of the source root from a path that extends it
yields the relative remainder. -/
theorem dropRoot_append (src : String) (rel : List Char) :
    ((⟨(src ++ (⟨rel⟩ : String)).data.drop src.data.length⟩ : String)) =
      (⟨rel⟩ : String) := by
  congr 1
  rw [String.data_append]
  exact List.drop_left _ _

-- Quick sanity examples on concrete inputs (kept as examples, not claims).
example : createModuleName "lib" (createPathName "/w/src" "/w/src/index.js") = "lib" := by decide
example : createModuleName "lib" (createPathName "/w/src" "/w/src/Foo/index.js") = "lib/Foo" := by decide
example : createModuleName "lib" (createPathName "/w/src" "/w/src/Foo/bar.js") = "lib/Foo/bar" := by decide
example : takeFiles "/w/src/Foo/__tests__/bar.test.js" = false := by decide
example : takeFiles "/w/src/Foo/bar.js" = true := by decide

/-- C1 (amended): for every path extending the source root, the public
module name the script derives agrees with the claimed formula once "R
with the extension removed" is read as "R with the first occurrence of
.js removed"; the directory-index branch and the bare-name assembly are
as claimed. -/
theorem c1_first_occurrence_naming (pkg src : String) (rel : List Char) :
    createModuleName pkg (createPathName src (src ++ (⟨rel⟩ : String))) =
      claimC1AmendedModuleName pkg src (src ++ (⟨rel⟩ : String)) := by
  simp only [createPathName, claimC1AmendedModuleName, createModuleName]
  rw [removeSourcePath_append, dropRoot_append]

/-- C1 counterexample: the eligible source file "/w/src/a.json.js"
derives the module name "lib/aon.js" (the script removes the first
occurrence of ".js", inside ".json"), while the claimed
extension-removal formula yields "lib/a.json"; the two differ. -/
theorem c1_counterexample :
    takeFiles "/w/src/a.json.js" = true ∧
    createModuleName "lib" (createPathName "/w/src" "/w/src/a.json.js") =
      "lib/aon.js" ∧
    claimC1ModuleName "lib" "/w/src" "/w/src/a.json.js" = "lib/a.json" ∧
    decide (createModuleName "lib" (createPathName "/w/src" "/w/src/a.json.js") =
      claimC1ModuleName "lib" "/w/src" "/w/src/a.json.js") = false := by
  refine ⟨by decide, by decide, by decide, by decide⟩

/-- C2: two distinct eligible source files, a plain file "a.js" and the
directory-index file "a/index.js", are both eligible and both collapse to
the same public module name "lib/a", so module-name derivation is not
injective over eligible files. -/
theorem c2_collision :
    decide (("/w/src/a.js" : String) = "/w/src/a/index.js") = false ∧
    takeFiles "/w/src/a.js" = true ∧
    takeFiles "/w/src/a/index.js" = true ∧
    createModuleName "lib" (createPathName "/w/src" "/w/src/a.js") =
      createModuleName "lib" (createPathName "/w/src" "/w/src/a/index.js") := by
  refine ⟨by decide, by decide, by decide, by decide⟩

/-- C5: a path is kept by takeFiles exactly when it ends in ".js" and
matches none of the exclusion patterns, and any path matched by an
exclusion pattern is rejected regardless of its extension; takeFiles is a
total Boolean function, so ineligibility is a plain negative result with
no error case. -/
theorem c5_eligibility (p : String) :
    takeFiles p = (jsEndsWith ".js" p && !anymatchDoNotBuild p) ∧
    (anymatchDoNotBuild p = true → takeFiles p = false) := by
  constructor
  · rfl
  · intro h
    simp [takeFiles, isNotIncludedInBuildPaths, h]

/-- C5 witness: "/w/src/Foo/type.js" ends in ".js" yet matches the
"type.js" exclusion pattern, and is therefore ineligible. -/
theorem c5_eligibility_witness :
    anymatchDoNotBuild "/w/src/Foo/type.js" = true ∧
    takeFiles "/w/src/Foo/type.js" = false :=
  ⟨by decide, (c5_eligibility "/w/src/Foo/type.js").2 (by decide)⟩

/-- JSON scalar values appearing in the package descriptor transform. -/
inductive JVal where
  | s (v : String)
  | b (v : Bool)
  deriving DecidableEq

/-- Field-lookup model of a JSON object: a key is either absent (none) or
bound to a value. Key order plays no role in the descriptor claims. -/
def JObj : Type := String → Option JVal

/-- Embeds rambdax omit: the listed keys become absent, all other keys are
unchanged. -/
def omitKeys (ks : List String) (o : JObj) : JObj :=
  fun k => if k ∈ ks then none else o k

/-- Embeds rambdax merge(target, newProps), which copies target and then
overwrites with newProps (Object.assign semantics): on lookup, newProps
wins whenever it binds the key. -/
def mergeObj (target newProps : JObj) : JObj :=
  fun k =>
    match newProps k with
    | some v => some v
    | none => target k

/-- The fixed object merged in by prepareJson: the two entry points and
the side-effect-free flag. -/
def packageOverrides : JObj :=
  fun k =>
    if k = "main" then some (JVal.s "./cjs/index.js")
    else if k = "module" then some (JVal.s "./esm/index.js")
    else if k = "sideEffects" then some (JVal.b false)
    else none

/-- Embeds the object part of prepareJson: omit the "scripts" key, then
merge(packageOverrides, result); the final pretty-printing stage carries
the same entries and is not modelled. In the pipe, the omitted input
object is the second merge argument, so its own bindings win. -/
def prepareJson (o : JObj) : JObj :=
  mergeObj packageOverrides (omitKeys ["scripts"] o)

/-- C4 counterexample: an input manifest that already binds "main" keeps
its own value; the output binds "main" to "./custom.js", not to the fixed
entry "./cjs/index.js", so the fixed entries do not hold for every input
shape. -/
theorem c4_counterexample :
    prepareJson (fun k => if k = "main" then some (JVal.s "./custom.js") else none)
      "main" = some (JVal.s "./custom.js") ∧
    decide (JVal.s "./custom.js" = JVal.s "./cjs/index.js") = false := by
  refine ⟨by decide, by decide⟩

/-- C4 (amended): the transformed descriptor never binds "scripts" and
always binds "main", "module" and "sideEffects"; the fixed values
"./cjs/index.js", "./esm/index.js" and false apply exactly when the input
does not itself bind the key, because the merge lets the (scripts-less)
input win. -/
theorem c4_descriptor (o : JObj) :
    prepareJson o "scripts" = none ∧
    (prepareJson o "main").isSome = true ∧
    (prepareJson o "module").isSome = true ∧
    (prepareJson o "sideEffects").isSome = true ∧
    (o "main" = none → prepareJson o "main" = some (JVal.s "./cjs/index.js")) ∧
    (o "module" = none → prepareJson o "module" = some (JVal.s "./esm/index.js")) ∧
    (o "sideEffects" = none → prepareJson o "sideEffects" = some (JVal.b false)) ∧
    (∀ v, o "main" = some v → prepareJson o "main" = some v) := by
  refine ⟨?_, ?_, ?_, ?_, ?_, ?_, ?_, ?_⟩
  · simp [prepareJson, mergeObj, omitKeys, packageOverrides]
  · cases h : o "main" <;>
      simp [prepareJson, mergeObj, omitKeys, packageOverrides, h]
  · cases h : o "module" <;>
      simp [prepareJson, mergeObj, omitKeys, packageOverrides, h]
  · cases h : o "sideEffects" <;>
      simp [prepareJson, mergeObj, omitKeys, packageOverrides, h]
  · intro h
    simp [prepareJson, mergeObj, omitKeys, packageOverrides, h]
  · intro h
    simp [prepareJson, mergeObj, omitKeys, packageOverrides, h]
  · intro h
    simp [prepareJson, mergeObj, omitKeys, packageOverrides, h]
  · intro v h
    simp [prepareJson, mergeObj, omitKeys, packageOverrides, h]

/-- C4 witness: on an input binding nothing, the output drops "scripts"
and carries the three fixed entries. -/
theorem c4_descriptor_witness :
    prepareJson (fun _ => none) "scripts" = none ∧
    prepareJson (fun _ => none) "main" = some (JVal.s "./cjs/index.js") ∧
    prepareJson (fun _ => none) "module" = some (JVal.s "./esm/index.js") ∧
    prepareJson (fun _ => none) "sideEffects" = some (JVal.b false) :=
  ⟨(c4_descriptor (fun _ => none)).1,
    (c4_descriptor (fun _ => none)).2.2.2.2.1 rfl,
    (c4_descriptor (fun _ => none)).2.2.2.2.2.1 rfl,
    (c4_descriptor (fun _ => none)).2.2.2.2.2.2.1 rfl⟩

/-- Embeds the mapping stage of buildPathMapping: one entry per file, in
list order, with key createModuleName(createPathName(file)) and value the
dev root (development) or the package name (production), a slash, the
format, and the derived name. The surrounding template and file write
serialize these entries unchanged. -/
def buildPathMappingEntries (isDevelopment : Bool) (pkg devPath src format : String)
    (files : List String) : List (String × String) :=
  files.map fun file =>
    let name := createPathName src file
    (createModuleName pkg name,
      (if isDevelopment then devPath else pkg) ++ "/" ++ format ++ name)

/-- C6: for every format and file list, the manifest entry list has
exactly one entry per file, in the same order; the entry at each index
carries the module name of the file at that index as key, and as value
the development root, slash, format and derived name in development mode,
or the package name, slash, format and derived name in production mode. -/
theorem c6_manifest_entries (isDevelopment : Bool) (pkg devPath src format : String)
    (files : List String) (i : Nat) :
    (buildPathMappingEntries isDevelopment pkg devPath src format files).length =
      files.length ∧
    (buildPathMappingEntries isDevelopment pkg devPath src format files)[i]? =
      (files[i]?).map (fun file =>
        (createModuleName pkg (createPathName src file),
          (if isDevelopment then devPath else pkg) ++ "/" ++ format ++
            createPathName src file)) := by
  constructor
  · simp [buildPathMappingEntries]
  · simp [buildPathMappingEntries, List.getElem?_map]

/-- C9: the CJS and ESM manifests generated from the same file list have
the same key sequence, and corresponding values differ only in the format
segment: each pair of values is a common front part followed by "cjs"
respectively "esm" followed by a common rear part. -/
theorem c9_manifests_differ_only_in_format (isDevelopment : Bool)
    (pkg devPath src : String) (files : List String) :
    (buildPathMappingEntries isDevelopment pkg devPath src "cjs" files).map Prod.fst =
      (buildPathMappingEntries isDevelopment pkg devPath src "esm" files).map Prod.fst ∧
    List.Forall₂ (fun c e : String × String =>
        ∃ front rear, c.2 = front ++ "cjs" ++ rear ∧ e.2 = front ++ "esm" ++ rear)
      (buildPathMappingEntries isDevelopment pkg devPath src "cjs" files)
      (buildPathMappingEntries isDevelopment pkg devPath src "esm" files) := by
  constructor
  · simp [buildPathMappingEntries]
  · induction files with
    | nil => exact List.Forall₂.nil
    | cons f fs ih =>
      refine List.Forall₂.cons
        ⟨(if isDevelopment then devPath else pkg) ++ "/", createPathName src f,
          ?_, ?_⟩ ih
      · simp [String.append_assoc]
      · simp [String.append_assoc]

/-- Observable steps of the production pipeline, in the order the script
performs them. A batch initiation records that the (not awaited) mapAsync
call over all eligible files was started for one format; an awaitBatch
step would record that the pipeline waited for a whole batch, which the
script never does. -/
inductive BuildStep where
  | discover
  | cleanDir
  | makeDir
  | writePackageDescriptor
  | copyStaticAssets
  | manifestWrite (format : String)
  | errorLogged (format : String)
  | initiateBatch (format : String)
  | awaitBatch (format : String)
  deriving DecidableEq

/-- True exactly on errorLogged steps. -/
def BuildStep.isErrorLog : BuildStep → Bool
  | .errorLogged _ => true
  | _ => false

/-- True exactly on awaitBatch steps. -/
def BuildStep.isAwait : BuildStep → Bool
  | .awaitBatch _ => true
  | _ => false

/-- Steps produced by one buildPathMapping write: the attempt always
happens; when mkdirp or writeFileSync throws (first failure wins, as in
the try block) the catch logs the error and nothing is re-raised, so the
step list is the only outcome. -/
def manifestWriteSteps (format : String) (mk wr : Except String Unit) :
    List BuildStep :=
  match mk.bind (fun _ => wr) with
  | .ok _ => [.manifestWrite format]
  | .error _ => [.manifestWrite format, .errorLogged format]

/-- Trace of the production (non-development) run of the script:
discovery runs at module load, then the else branch cleans dist, creates
it, writes package.json, copies the static files, writes the CJS and ESM
manifests, and finally starts the ESM batch and immediately the CJS
batch. The four parameters are the outcomes of mkdirp and writeFileSync
for the CJS resp. ESM manifest. -/
def productionTrace (cjsMk cjsWr esmMk esmWr : Except String Unit) :
    List BuildStep :=
  [.discover, .cleanDir, .makeDir, .writePackageDescriptor, .copyStaticAssets]
    ++ manifestWriteSteps "cjs" cjsMk cjsWr
    ++ manifestWriteSteps "esm" esmMk esmWr
    ++ [.initiateBatch "esm", .initiateBatch "cjs"]

/-- Step order asserted by claim C3, transcribed from its words: clean,
ensure the directory, discover, generate both manifests, write the
package descriptor, copy static assets, compile FormatA fully awaited,
then compile FormatB. -/
def claimC3Trace : List BuildStep :=
  [.cleanDir, .makeDir, .discover, .manifestWrite "cjs", .manifestWrite "esm",
   .writePackageDescriptor, .copyStaticAssets,
   .initiateBatch "esm", .awaitBatch "esm",
   .initiateBatch "cjs", .awaitBatch "cjs"]

/-- C3 counterexample: the trace of a fully successful production run is
not the claimed trace (discovery precedes cleaning, the package
descriptor and static assets precede the manifests, and no batch is
awaited). -/
theorem c3_counterexample :
    decide (productionTrace (.ok ()) (.ok ()) (.ok ()) (.ok ()) = claimC3Trace)
      = false := by
  decide

/-- C3 (amended): a fully successful production run discovers the
eligible files first (at module load), then cleans the output directory,
ensures it exists, writes the package descriptor, copies the static
assets, writes the CJS and then the ESM manifest, and then initiates the
ESM compile batch and immediately the CJS compile batch; no run of the
pipeline ever awaits a batch between the two initiations, whatever the
manifest write outcomes. -/
theorem c3_production_order :
    productionTrace (.ok ()) (.ok ()) (.ok ()) (.ok ()) =
      [.discover, .cleanDir, .makeDir, .writePackageDescriptor,
       .copyStaticAssets, .manifestWrite "cjs", .manifestWrite "esm",
       .initiateBatch "esm", .initiateBatch "cjs"] ∧
    ∀ a b c d : Except String Unit,
      (productionTrace a b c d).all (fun s => ! s.isAwait) = true := by
  constructor
  · decide
  · intro a b c d
    cases h1 : a.bind (fun _ => b) <;> cases h2 : c.bind (fun _ => d) <;>
      simp [productionTrace, manifestWriteSteps, h1, h2, BuildStep.isAwait]

/-- C8: when the CJS manifest directory creation or file write fails, the
error is logged and nothing is re-raised: the run still contains every
non-logging step of a fully successful run, in the same order, and
symmetrically for the ESM manifest. -/
theorem c8_manifest_write_failure (a b c d : Except String Unit) (e : String) :
    (a.bind (fun _ => b) = .error e →
      BuildStep.errorLogged "cjs" ∈ productionTrace a b c d) ∧
    (c.bind (fun _ => d) = .error e →
      BuildStep.errorLogged "esm" ∈ productionTrace a b c d) ∧
    (productionTrace a b c d).filter (fun s => ! s.isErrorLog) =
      productionTrace (.ok ()) (.ok ()) (.ok ()) (.ok ()) := by
  refine ⟨?_, ?_, ?_⟩
  · intro h
    simp [productionTrace, manifestWriteSteps, h]
  · intro h
    simp [productionTrace, manifestWriteSteps, h]
  · cases h1 : a.bind (fun _ => b) <;> cases h2 : c.bind (fun _ => d) <;>
      simp [productionTrace, manifestWriteSteps, h1, h2, BuildStep.isErrorLog] <;>
      decide

/-- C8 witness: with the CJS write failing on a permission error and the
ESM write succeeding, the error is logged and the filtered trace equals
the successful trace. -/
theorem c8_manifest_write_failure_witness :
    BuildStep.errorLogged "cjs" ∈
      productionTrace (.error "EACCES") (.ok ()) (.ok ()) (.ok ()) ∧
    (productionTrace (.error "EACCES") (.ok ()) (.ok ()) (.ok ())).filter
        (fun s => ! s.isErrorLog) =
      productionTrace (.ok ()) (.ok ()) (.ok ()) (.ok ()) :=
  ⟨(c8_manifest_write_failure (.error "EACCES") (.ok ()) (.ok ()) (.ok ())
      "EACCES").1 rfl,
    (c8_manifest_write_failure (.error "EACCES") (.ok ()) (.ok ()) (.ok ())
      "EACCES").2.2⟩

/-- File-system watch events as chokidar reports them to the "all"
handler, plus the ready (initial-scan-complete) event, which the "all"
handler is never invoked for. -/
inductive WatchEvent where
  | add (p : String)
  | addDir (p : String)
  | change (p : String)
  | unlink (p : String)
  | unlinkDir (p : String)
  | ready
  deriving DecidableEq

/-- Path carried by an event, when any. -/
def WatchEvent.pathOf : WatchEvent → Option String
  | .add p => some p
  | .addDir p => some p
  | .change p => some p
  | .unlink p => some p
  | .unlinkDir p => some p
  | .ready => none

/-- Actions the development event handler can dispatch. The regenerate
constructor exists so that never regenerating a manifest is a statement
about the handler, not about the action type. -/
inductive DevAction where
  | logLine (msg : String)
  | compile (format : String) (file : String)
  | regenerateManifest (format : String)
  deriving DecidableEq

/-- True exactly on compile dispatches. -/
def DevAction.isCompile : DevAction → Bool
  | .compile _ _ => true
  | _ => false

/-- True exactly on manifest regenerations. -/
def DevAction.isRegen : DevAction → Bool
  | .regenerateManifest _ => true
  | _ => false

/-- Embeds buildModules of the development branch: dispatch the CJS
compile and then the ESM compile of the one file, neither awaited. -/
def buildModulesDev (file : String) : List DevAction :=
  [.compile "cjs" file, .compile "esm" file]

/-- Embeds the switch in the chokidar "all" handler: add and change log
the stripped path and dispatch both compiles for that path; every other
event falls to the default branch and does nothing. -/
def watchHandler (src : String) : WatchEvent → List DevAction
  | .add p => DevAction.logLine ("✓ " ++ removeSourcePath src p) :: buildModulesDev p
  | .change p => DevAction.logLine ("✓ " ++ removeSourcePath src p) :: buildModulesDev p
  | _ => []

/-- Embeds the watch subscription composed with the handler: chokidar
drops events whose path matches the ignored DO_NOT_BUILD_PATHS set before
the handler runs, and the "all" handler is not called for ready. -/
def devEventResponse (src : String) (e : WatchEvent) : List DevAction :=
  match e.pathOf with
  | some p => if anymatchDoNotBuild p then [] else watchHandler src e
  | none => []

/-- C7: an add or change event for a path dispatches exactly the two
compile invocations for that path, one per format; unlink, addDir,
unlinkDir and ready events are no-ops; and no event makes the handler
regenerate a manifest, so the manifests written at startup are never
rewritten by the watch loop. -/
theorem c7_watch_events (src p : String) :
    (watchHandler src (.add p)).filter DevAction.isCompile =
      [.compile "cjs" p, .compile "esm" p] ∧
    (watchHandler src (.change p)).filter DevAction.isCompile =
      [.compile "cjs" p, .compile "esm" p] ∧
    watchHandler src (.unlink p) = [] ∧
    watchHandler src (.addDir p) = [] ∧
    watchHandler src (.unlinkDir p) = [] ∧
    watchHandler src .ready = [] ∧
    ∀ e, (watchHandler src e).filter DevAction.isRegen = [] := by
  refine ⟨?_, ?_, rfl, rfl, rfl, rfl, ?_⟩
  · simp [watchHandler, buildModulesDev, DevAction.isCompile]
  · simp [watchHandler, buildModulesDev, DevAction.isCompile]
  · intro e
    cases e <;> simp [watchHandler, buildModulesDev, DevAction.isRegen]

/-- C10: the watch path only applies the exclusion-pattern filter, not
the ".js" eligibility check: an add or change event for any path matching
no exclusion pattern dispatches both compiles, and when such a path does
not end in ".js" it is nevertheless compiled although discovery would
classify it ineligible. -/
theorem c10_watch_skips_extension_check (src p : String)
    (h : anymatchDoNotBuild p = false) :
    (devEventResponse src (.add p)).filter DevAction.isCompile =
      [.compile "cjs" p, .compile "esm" p] ∧
    (devEventResponse src (.change p)).filter DevAction.isCompile =
      [.compile "cjs" p, .compile "esm" p] ∧
    (jsEndsWith ".js" p = false → takeFiles p = false) := by
  refine ⟨?_, ?_, ?_⟩
  · simp [devEventResponse, WatchEvent.pathOf, h, watchHandler,
      buildModulesDev, DevAction.isCompile]
  · simp [devEventResponse, WatchEvent.pathOf, h, watchHandler,
      buildModulesDev, DevAction.isCompile]
  · intro h2
    simp [takeFiles, h2]

/-- C10 witness: the non-JavaScript file "/w/src/notes.txt" matches no
exclusion pattern, is ineligible at discovery time, and still gets both
compiles dispatched on an add event. -/
theorem c10_watch_skips_extension_check_witness :
    anymatchDoNotBuild "/w/src/notes.txt" = false ∧
    (devEventResponse "/w/src" (.add "/w/src/notes.txt")).filter
        DevAction.isCompile =
      [.compile "cjs" "/w/src/notes.txt", .compile "esm" "/w/src/notes.txt"] ∧
    takeFiles "/w/src/notes.txt" = false :=
  ⟨by decide,
    (c10_watch_skips_extension_check "/w/src" "/w/src/notes.txt" (by decide)).1,
    (c10_watch_skips_extension_check "/w/src" "/w/src/notes.txt" (by decide)).2.2
      (by decide)⟩
